import Mathlib

/-!
Verification development for the spyder-unittest test-execution backend
(`spyder_unittest/backend/testrunner.py` and
`spyder_unittest/backend/noserunner.py`).

The result files the backend parses are JUnit-XML documents; we embed the
relevant fragment of lxml `etree` elements as a tree of tags, attribute
lists and optional text.  Python exceptions are embedded as `Except`
values, Python `float` values as rationals (the `time` attributes are
decimal literals), and Python truthiness of strings and `None` is made
explicit.
-/

deriving instance DecidableEq for Except

namespace SpyderUnittest

/-- An XML element as seen through lxml `etree`: a tag, the attribute
list, the text content directly inside the element (`none` for an empty
element, as in lxml where `element.text` is `None`), and the list of
child elements (iterating an element in Python yields its children). -/
structure Element where
  tag : String
  attrs : List (String × String)
  text : Option String
  children : List Element
deriving Repr

/-- `element.get(key)` in lxml: the attribute value, or `None` when the
attribute is absent. -/
def Element.get (e : Element) (key : String) : Option String :=
  (e.attrs.find? (fun p => p.1 = key)).map Prod.snd

/-- `element.get(key, default=d)` in lxml: the attribute value, or the
default when the attribute is absent. -/
def Element.getD (e : Element) (key dflt : String) : String :=
  (e.get key).getD dflt

/-- Python truthiness of an optional string: `None` and the empty string
are falsy, any other string is truthy. -/
def truthy : Option String → Bool
  | none => false
  | some s => s ≠ ""

/-- Python `str` formatting of a value that is either a string or `None`,
as used by `'{0}.{1}'.format(...)` on possibly-missing attributes. -/
def pyStrOfOpt : Option String → String
  | none => "None"
  | some s => s

/-- `Category` from `testrunner.py` / `runnerbase.py`: coarse outcome of
one test. -/
inductive Category
  | OK
  | FAIL
  | SKIP
deriving DecidableEq, Repr

/-- The `STATUS_TO_CATEGORY` dict of `testrunner.py`; `none` models a
`KeyError` on lookup. -/
def STATUS_TO_CATEGORY (status : String) : Option Category :=
  if status = "ok" then some Category.OK
  else if status = "failure" then some Category.FAIL
  else if status = "error" then some Category.FAIL
  else if status = "skipped" then some Category.SKIP
  else none

/-- The `TestResult` namedtuple: one test's parsed outcome.  `time` is a
rational, standing for the Python float parsed from the decimal `time`
attribute. -/
structure TestResult where
  category : Category
  status : String
  name : String
  message : String
  time : ℚ
  extra_text : String
deriving DecidableEq, Repr

/-- The Python exceptions the parsing and start-up code can raise. -/
inductive PyError
  | valueError (msg : String)
  | typeError
  | keyError (k : String)
  | attributeError
deriving DecidableEq, Repr

/-- Numeric value of a list of decimal digit characters. -/
def digitsVal (l : List Char) : Nat :=
  l.foldl (fun n c => 10 * n + (c.toNat - 48)) 0

/-- Python `float()` on the decimal literals found in `time` attributes:
an optional sign, an integer part and an optional fractional part after a
dot; any other string fails to parse (Python raises `ValueError`).  The
value is kept exactly, as a rational. -/
def pyFloatOfString (s : String) : Option ℚ :=
  let l := s.toList
  let signAndRest : Bool × List Char :=
    match l with
    | '-' :: r => (true, r)
    | '+' :: r => (false, r)
    | _ => (false, l)
  let neg := signAndRest.1
  let l2 := signAndRest.2
  let ip := l2.takeWhile Char.isDigit
  let rest := l2.dropWhile Char.isDigit
  let val : Option ℚ :=
    match rest with
    | [] => if ip.isEmpty then none else some (digitsVal ip)
    | '.' :: fp =>
      if fp.all Char.isDigit ∧ ¬(ip.isEmpty ∧ fp.isEmpty) then
        some (mkRat (digitsVal ip * 10 ^ fp.length + digitsVal fp) (10 ^ fp.length))
      else none
    | _ => none
  val.map (fun q => if neg then -q else q)

/-- `float(testcase.get('time'))` as both runners evaluate it: a missing
attribute is `None`, and `float(None)` raises `TypeError`; a string that
is not a numeric literal raises `ValueError`. -/
def pyFloat (v : Option String) : Except PyError ℚ :=
  match v with
  | none => Except.error PyError.typeError
  | some s =>
    match pyFloatOfString s with
    | some q => Except.ok q
    | none => Except.error (PyError.valueError "could not convert string to float")

/-- The message formatting of `TestRunner.load_data` (testrunner.py lines
193-198): `if type_ and message: message = type: message; elif type_:
message = type_`. -/
def messageA (type_ : Option String) (message : String) : String :=
  match type_ with
  | some t =>
    if t ≠ "" ∧ message ≠ "" then t ++ ": " ++ message
    else if t ≠ "" then t
    else message
  | none => message

/-- The `'{0}.{1}'.format(testcase.get('classname'), testcase.get('name'))`
test identifier built by both runners. -/
def testcaseName (testcase : Element) : String :=
  pyStrOfOpt (testcase.get "classname") ++ "." ++ pyStrOfOpt (testcase.get "name")

/-- The loop body of `TestRunner.load_data` (testrunner.py lines 186-205),
Dialect A: one `testcase` element becomes one `TestResult`.  The first
child, when present, supplies status, message and extra text; the status
is looked up in `STATUS_TO_CATEGORY` (a `KeyError` when absent). -/
def parse_testcase_A (testcase : Element) : Except PyError TestResult :=
  match pyFloat (testcase.get "time") with
  | Except.error e => Except.error e
  | Except.ok time =>
    let name := testcaseName testcase
    let rec3 : String × String × String :=
      match testcase.children with
      | test_error :: _ =>
        (test_error.tag,
         messageA (test_error.get "type") (test_error.getD "message" ""),
         test_error.text.getD "")
      | [] => ("ok", "", "")
    let status := rec3.1
    let message := rec3.2.1
    let extra_text := rec3.2.2
    match STATUS_TO_CATEGORY status with
    | some category => Except.ok ⟨category, status, name, message, time, extra_text⟩
    | none => Except.error (PyError.keyError status)

/-- `TestRunner.load_data` (testrunner.py lines 168-206).  The input is
`none` when opening or parsing the result file raised `OSError` (file
missing or unreadable), in which case the loop runs over `data = []`;
otherwise it is the root element and the loop runs over its children. -/
def load_data_A (file : Option Element) : Except PyError (List TestResult) :=
  let data : List Element :=
    match file with
    | none => []
    | some root => root.children
  data.mapM parse_testcase_A

/-- Python `s.rstrip('\n')`: remove trailing newline characters. -/
def rstripNewlines (s : String) : String :=
  String.mk ((s.toList.reverse.dropWhile (fun c => c = '\n')).reverse)

/-- The message formatting of `NoseRunner.load_data` (noserunner.py lines
74-77): `if type_: message = type: message if message else type_`. -/
def messageB (type_ : Option String) (message : String) : String :=
  match type_ with
  | some t =>
    if t ≠ "" then (if message ≠ "" then t ++ ": " ++ message else t)
    else message
  | none => message

/-- The running state of the child loop of `NoseRunner.load_data`:
the variables `category`, `status`, `message` and `extras` mutated by the
loop over the children of one `testcase`. -/
structure LoopState where
  category : Category
  status : String
  message : String
  extras : List String
deriving DecidableEq, Repr

/-- One iteration of the child loop of `NoseRunner.load_data`
(noserunner.py lines 70-86).  An `error`/`failure`/`skipped` child resets
category, status and message and appends its truthy text to `extras`; a
`system-out`/`system-err` child appends a heading block built from
`child.text.rstrip('\n')` — when the child has no text, `child.text` is
`None` in lxml and `None.rstrip` raises `AttributeError`.  The headings
are the untranslated `Captured stdout` / `Captured stderr` strings
(`gettext` falls back to the identity). -/
def process_child_B (st : LoopState) (child : Element) : Except PyError LoopState :=
  if child.tag = "error" ∨ child.tag = "failure" ∨ child.tag = "skipped" then
    let category := if child.tag = "skipped" then Category.SKIP else Category.FAIL
    let message := messageB (child.get "type") (child.getD "message" "")
    let extras :=
      match child.text with
      | some t => if t ≠ "" then st.extras ++ [t] else st.extras
      | none => st.extras
    Except.ok ⟨category, child.tag, message, extras⟩
  else if child.tag = "system-out" ∨ child.tag = "system-err" then
    let heading := if child.tag = "system-out" then "Captured stdout" else "Captured stderr"
    match child.text with
    | none => Except.error PyError.attributeError
    | some t =>
      Except.ok { st with extras := st.extras ++ ["----- " ++ heading ++ " -----\n" ++ rstripNewlines t] }
  else Except.ok st

/-- The loop body of `NoseRunner.load_data` (noserunner.py lines 62-90),
Dialect B: one `testcase` element becomes one `TestResult`.  The
variables start at `(OK, "ok", "", [])`, every child is processed in
document order, and the collected `extras` are joined with a blank line
(`'\n\n'.join(extras)`). -/
def parse_testcase_B (testcase : Element) : Except PyError TestResult :=
  match pyFloat (testcase.get "time") with
  | Except.error e => Except.error e
  | Except.ok time =>
    let name := testcaseName testcase
    match testcase.children.foldlM process_child_B ⟨Category.OK, "ok", "", []⟩ with
    | Except.error e => Except.error e
    | Except.ok st =>
      Except.ok ⟨st.category, st.status, name, st.message, time,
                 String.intercalate "\n\n" st.extras⟩

/-- `NoseRunner.load_data` (noserunner.py lines 43-92).  As in Dialect A,
the input is `none` when reading the result file raised `OSError`, making
the loop run over the empty list. -/
def load_data_B (file : Option Element) : Except PyError (List TestResult) :=
  let data : List Element :=
    match file with
    | none => []
    | some root => root.children
  data.mapM parse_testcase_B

/-- The framework dispatch of `TestRunner.start` (testrunner.py lines
129-139): the executable and argument list for the chosen framework, a
`ValueError` for any other framework name.  `os_is_nt` models
`os.name == 'nt'`, which appends `.exe` to the executable. -/
def start_command (framework : String) (os_is_nt : Bool) (resultfilename : String) :
    Except PyError (String × List String) :=
  if framework = "nose" then
    let executable := if os_is_nt then "nosetests.exe" else "nosetests"
    Except.ok (executable, ["--with-xunit", "--xunit-file=" ++ resultfilename])
  else if framework = "py.test" then
    let executable := if os_is_nt then "py.test.exe" else "py.test"
    Except.ok (executable, ["--junit-xml", resultfilename])
  else Except.error (PyError.valueError "Unknown framework")

/-- The externally visible effects of `TestRunner.start` after the
framework dispatch (testrunner.py lines 141-147): the stale result file
is removed, then the process is launched. -/
inductive StartEffect
  | removeResultFile (path : String)
  | launch (executable : String) (args : List String)
deriving DecidableEq, Repr

/-- `TestRunner.start` (testrunner.py lines 86-149) as the sequence of
effects it performs after building the command: an unknown framework
raises before the result file is touched and before any process is
launched. -/
def start_effects (framework : String) (os_is_nt : Bool) (resultfilename : String) :
    Except PyError (List StartEffect) :=
  match start_command framework os_is_nt resultfilename with
  | Except.error e => Except.error e
  | Except.ok (executable, p_args) =>
    Except.ok [StartEffect.removeResultFile resultfilename,
               StartEffect.launch executable p_args]

/-- The run-lifecycle state of a `TestRunner` (testrunner.py): whether
the child process is still running, whether a kill was requested, and how
many times `sig_finished` has been emitted.  `start` (line 115) connects
the process's finished event to `TestRunner.finished` once and nothing
ever disconnects it. -/
structure RunnerModel where
  processRunning : Bool
  killRequested : Bool
  finishedEmissions : Nat
deriving DecidableEq, Repr

/-- `TestRunner.kill_if_running` (testrunner.py lines 163-166): when the
process is in the `Running` state it is killed; the `TestRunner` itself
records nothing — no state flag is set, no slot is disconnected.  The
kill only asks the OS to terminate the child; the child's exit is
observed later through the process 'finished' event. -/
def kill_if_running (s : RunnerModel) : RunnerModel :=
  if s.processRunning then { s with killRequested := true } else s

/-- Delivery of the QProcess 'finished' event for a running child
process (it fires when the child exits — naturally or after a kill), which
invokes the connected slot `TestRunner.finished` (testrunner.py lines
151-161); that slot unconditionally emits `sig_finished`. -/
def process_finished_event (s : RunnerModel) : RunnerModel :=
  if s.processRunning then
    { s with processRunning := false, finishedEmissions := s.finishedEmissions + 1 }
  else s

/-! Concrete result-file fixtures, following the JUnit-XML shapes in the
docstrings of `load_data` and the shapes emitted by py.test and nose. -/

/-- A passing testcase: no child element. -/
def tc_ok : Element :=
  ⟨"testcase", [("classname", "TestA"), ("name", "test_one"), ("time", "0.01")], none, []⟩

/-- A `failure` outcome child carrying a type, a message and a body. -/
def failure_child : Element :=
  ⟨"failure", [("type", "AssertionError"), ("message", "boom")], some "trace", []⟩

/-- A failing testcase with one `failure` child. -/
def tc_failure : Element :=
  ⟨"testcase", [("classname", "TestA"), ("name", "test_two"), ("time", "0.02")], none,
   [failure_child]⟩

/-- A bare `skipped` outcome child. -/
def skipped_child : Element :=
  ⟨"skipped", [], none, []⟩

/-- A `system-out` child with the text `hello` plus a trailing newline. -/
def sysout_hello : Element :=
  ⟨"system-out", [], some "hello\n", []⟩

/-- Dialect B testcase with one `skipped` child and one `system-out` child. -/
def tc_skip_hello : Element :=
  ⟨"testcase", [("classname", "TestSkip"), ("name", "test_skip"), ("time", "0.5")], none,
   [skipped_child, sysout_hello]⟩

/-- An empty `system-out` element: its text is `None` in lxml. -/
def sysout_empty : Element :=
  ⟨"system-out", [], none, []⟩

/-- Dialect B testcase containing an empty `system-out` child. -/
def tc_empty_stream : Element :=
  ⟨"testcase", [("classname", "T"), ("name", "t"), ("time", "0.1")], none, [sysout_empty]⟩

/-- A result file whose only testcase has an empty `system-out` child. -/
def root_empty_stream : Element :=
  ⟨"testsuite", [], none, [tc_empty_stream]⟩

/-- A `system-out` child with text, used as the FIRST child of a testcase. -/
def sysout_x : Element :=
  ⟨"system-out", [], some "x", []⟩

/-- A testcase whose first child is `system-out` and whose second child is
a `failure` element. -/
def tc_sysout_first : Element :=
  ⟨"testcase", [("classname", "T"), ("name", "t"), ("time", "1")], none,
   [sysout_x, failure_child]⟩

/-- A testcase whose `time` attribute is not a numeric literal. -/
def tc_bad_time : Element :=
  ⟨"testcase", [("classname", "T"), ("name", "t"), ("time", "abc")], none, []⟩

/-- A result file with two testcases: one passing, one failing. -/
def root_two : Element :=
  ⟨"testsuite", [], none, [tc_ok, tc_failure]⟩

/-- The record parsed from `tc_ok`. -/
def res_ok : TestResult :=
  ⟨Category.OK, "ok", "TestA.test_one", "", mkRat 1 100, ""⟩

/-- The record parsed from `tc_failure` (both dialects agree on it). -/
def res_failure : TestResult :=
  ⟨Category.FAIL, "failure", "TestA.test_two", "AssertionError: boom", mkRat 1 50, "trace"⟩

/-! Theorems. -/

/-- A successful `mapM` over `Except` succeeds pointwise, in order. -/
theorem mapM_ok_forall2 {α β : Type} (f : α → Except PyError β) :
    ∀ (xs : List α) (ys : List β), xs.mapM f = Except.ok ys →
      List.Forall₂ (fun x y => f x = Except.ok y) xs ys := by
  intro xs
  induction xs with
  | nil =>
    intro ys h
    simp only [List.mapM_nil, pure, Except.pure] at h
    cases h
    exact List.Forall₂.nil
  | cons x xs ih =>
    intro ys h
    rw [List.mapM_cons] at h
    cases hfx : f x with
    | error e =>
      rw [hfx] at h
      simp only [Bind.bind, Except.bind] at h
      cases h
    | ok y =>
      rw [hfx] at h
      cases hms : xs.mapM f with
      | error e =>
        rw [hms] at h
        simp only [Bind.bind, Except.bind, pure, Except.pure] at h
        cases h
      | ok ys2 =>
        rw [hms] at h
        simp only [Bind.bind, Except.bind, pure, Except.pure] at h
        cases h
        exact List.Forall₂.cons hfx (ih ys2 hms)

/-- Claim C1: when the result file does not exist or cannot be opened
(the `OSError` branch of `load_data`, input `none`), both dialects of
`load_data` return the empty sequence of records instead of an error. -/
theorem load_data_missing_file_empty :
    load_data_A none = Except.ok [] ∧ load_data_B none = Except.ok [] :=
  ⟨rfl, rfl⟩

/-- Claim C2 counterexample: cancelling a running test process with
`kill_if_running` does not suppress the finished notification — when the
process-exit event is later delivered (as it is after a kill, and in
particular when the process exits naturally), the connected slot still
emits `sig_finished`, so the number of emissions is not zero as the claim
requires. -/
theorem kill_then_exit_emits_finished_cex :
    (process_finished_event (kill_if_running ⟨true, false, 0⟩)).finishedEmissions ≠ 0 := by
  decide

/-- Claim C2 amended: `kill_if_running` invoked while the process is
running kills the process, but the code has no Cancelled state and never
disconnects the finished slot: if the process-exit event fires afterwards,
`sig_finished` is still emitted exactly once more. -/
theorem kill_does_not_suppress_finished (s : RunnerModel) (h : s.processRunning = true) :
    (kill_if_running s).killRequested = true ∧
    (process_finished_event (kill_if_running s)).finishedEmissions = s.finishedEmissions + 1 := by
  unfold kill_if_running process_finished_event
  simp [h]

/-- Witness for the amended claim C2, at a freshly started run. -/
theorem kill_does_not_suppress_finished_witness :
    (kill_if_running ⟨true, false, 0⟩).killRequested = true ∧
    (process_finished_event (kill_if_running ⟨true, false, 0⟩)).finishedEmissions =
      (⟨true, false, 0⟩ : RunnerModel).finishedEmissions + 1 :=
  kill_does_not_suppress_finished ⟨true, false, 0⟩ rfl

/-- Claim C3: the `time` attribute is parsed as a number — `0.023` parses
to the value 23/1000 = 0.023 and `abc` fails to parse — and in both
dialects a parse failure propagates as the error for that record while a
successful parse puts exactly the parsed value in the record: no default
such as zero is ever substituted. -/
theorem time_attribute_parsing :
    (pyFloatOfString "0.023" = some (mkRat 23 1000) ∧ mkRat 23 1000 = 23 / 1000) ∧
    pyFloatOfString "abc" = none ∧
    (∀ (tc : Element) (e : PyError), pyFloat (tc.get "time") = Except.error e →
      parse_testcase_A tc = Except.error e ∧ parse_testcase_B tc = Except.error e) ∧
    (∀ (tc : Element) (q : ℚ) (r : TestResult), pyFloat (tc.get "time") = Except.ok q →
      (parse_testcase_A tc = Except.ok r → r.time = q) ∧
      (parse_testcase_B tc = Except.ok r → r.time = q)) := by
  refine ⟨⟨by decide, by rw [Rat.mkRat_eq_divInt, Rat.divInt_eq_div]; norm_num⟩,
    by decide, ?_, ?_⟩
  · intro tc e h
    constructor
    · unfold parse_testcase_A
      rw [h]
    · unfold parse_testcase_B
      rw [h]
  · intro tc q r h
    constructor
    · intro hr
      unfold parse_testcase_A at hr
      rw [h] at hr
      dsimp only at hr
      split at hr
      · injection hr with hx
        rw [← hx]
      · cases hr
    · intro hr
      unfold parse_testcase_B at hr
      rw [h] at hr
      dsimp only at hr
      split at hr
      · cases hr
      · injection hr with hx
        rw [← hx]

/-- Witness for claim C3, at a testcase whose `time` attribute is `abc`. -/
theorem time_attribute_parsing_witness :
    parse_testcase_A tc_bad_time =
      Except.error (PyError.valueError "could not convert string to float") ∧
    parse_testcase_B tc_bad_time =
      Except.error (PyError.valueError "could not convert string to float") :=
  time_attribute_parsing.2.2.1 tc_bad_time
    (PyError.valueError "could not convert string to float") (by decide)

/-- Claim C4: in Dialect A, a testcase with no child elements produces a
record with category OK, status `ok`, empty message and empty extra
text. -/
theorem no_child_testcase_ok (tc : Element) (q : ℚ)
    (hc : tc.children = []) (ht : pyFloat (tc.get "time") = Except.ok q) :
    parse_testcase_A tc = Except.ok ⟨Category.OK, "ok", testcaseName tc, "", q, ""⟩ := by
  unfold parse_testcase_A
  rw [ht, hc]
  rfl

/-- Witness for claim C4, at a concrete childless testcase. -/
theorem no_child_testcase_ok_witness :
    parse_testcase_A tc_ok =
      Except.ok ⟨Category.OK, "ok", testcaseName tc_ok, "", mkRat 1 100, ""⟩ :=
  no_child_testcase_ok tc_ok (mkRat 1 100) rfl (by decide)

/-- Claim C5: in both dialects, a present nonempty `type` combined with a
nonempty `message` gives the record message `type: message`, and a present
nonempty `type` with an empty (or absent, hence defaulted-to-empty)
`message` gives the bare type; in particular a `failure` child with type
`AssertionError` and message `boom` yields `AssertionError: boom` through
both full parsers. -/
theorem outcome_message_formatting :
    (∀ t m : String, t ≠ "" →
      messageA (some t) m = (if m = "" then t else t ++ ": " ++ m) ∧
      messageB (some t) m = (if m = "" then t else t ++ ": " ++ m)) ∧
    parse_testcase_A tc_failure = Except.ok res_failure ∧
    parse_testcase_B tc_failure = Except.ok res_failure := by
  refine ⟨?_, by decide, by decide⟩
  intro t m htne
  constructor
  · unfold messageA
    by_cases hm : m = "" <;> simp [htne, hm]
  · unfold messageB
    by_cases hm : m = "" <;> simp [htne, hm]

/-- Witness for claim C5, at type `AssertionError` and message `boom`. -/
theorem outcome_message_formatting_witness :
    messageA (some "AssertionError") "boom" =
      (if "boom" = "" then "AssertionError" else "AssertionError" ++ ": " ++ "boom") ∧
    messageB (some "AssertionError") "boom" =
      (if "boom" = "" then "AssertionError" else "AssertionError" ++ ": " ++ "boom") :=
  outcome_message_formatting.1 "AssertionError" "boom" (by decide)

/-- Claim C6: in Dialect B, the concrete testcase with one `skipped`
child and one `system-out` child with text `hello` plus newline yields
category SKIP and extra text consisting of the labeled stdout heading
line followed by `hello` (trailing newline stripped); in general every
`system-out` or `system-err` child with text appends exactly one
heading-plus-text block to the extras collected in document order, which
the parser joins with a blank line. -/
theorem captured_stream_blocks :
    parse_testcase_B tc_skip_hello =
      Except.ok ⟨Category.SKIP, "skipped", "TestSkip.test_skip", "", mkRat 1 2,
                 "----- Captured stdout -----\nhello"⟩ ∧
    rstripNewlines "hello\n" = "hello" ∧
    (∀ (st : LoopState) (c : Element) (t : String), c.tag = "system-out" → c.text = some t →
      process_child_B st c =
        Except.ok { st with
          extras := st.extras ++ ["----- Captured stdout -----\n" ++ rstripNewlines t] }) ∧
    (∀ (st : LoopState) (c : Element) (t : String), c.tag = "system-err" → c.text = some t →
      process_child_B st c =
        Except.ok { st with
          extras := st.extras ++ ["----- Captured stderr -----\n" ++ rstripNewlines t] }) := by
  refine ⟨by decide, by decide, ?_, ?_⟩
  · intro st c t hc ht
    unfold process_child_B
    rw [hc, ht]
    simp
  · intro st c t hc ht
    unfold process_child_B
    rw [hc, ht]
    simp

/-- Witness for claim C6, at an empty loop state and the concrete
`system-out` child of the fixture. -/
theorem captured_stream_blocks_witness :
    process_child_B ⟨Category.OK, "ok", "", []⟩ sysout_hello =
      Except.ok { (⟨Category.OK, "ok", "", []⟩ : LoopState) with
        extras := (⟨Category.OK, "ok", "", []⟩ : LoopState).extras ++
          ["----- Captured stdout -----\n" ++ rstripNewlines "hello\n"] } :=
  captured_stream_blocks.2.2.1 ⟨Category.OK, "ok", "", []⟩ sysout_hello "hello\n" rfl rfl

/-- Claim C7: in both dialects, a successful parse of a result file with
N testcase children yields exactly N records, and the i-th record is the
parse of the i-th testcase (document order). -/
theorem one_record_per_testcase (root : Element) (ys : List TestResult) :
    (load_data_A (some root) = Except.ok ys →
      ys.length = root.children.length ∧
      ∀ (i : ℕ) (h1 : i < root.children.length) (h2 : i < ys.length),
        parse_testcase_A (root.children.get ⟨i, h1⟩) = Except.ok (ys.get ⟨i, h2⟩)) ∧
    (load_data_B (some root) = Except.ok ys →
      ys.length = root.children.length ∧
      ∀ (i : ℕ) (h1 : i < root.children.length) (h2 : i < ys.length),
        parse_testcase_B (root.children.get ⟨i, h1⟩) = Except.ok (ys.get ⟨i, h2⟩)) := by
  constructor
  · intro h
    have hf := mapM_ok_forall2 parse_testcase_A root.children ys h
    rw [List.forall₂_iff_get] at hf
    exact ⟨hf.1.symm, hf.2⟩
  · intro h
    have hf := mapM_ok_forall2 parse_testcase_B root.children ys h
    rw [List.forall₂_iff_get] at hf
    exact ⟨hf.1.symm, hf.2⟩

/-- Witness for claim C7, at the two-testcase fixture file, in both
dialects. -/
theorem one_record_per_testcase_witness :
    ([res_ok, res_failure] : List TestResult).length = root_two.children.length ∧
    parse_testcase_B (root_two.children.get ⟨0, by decide⟩) =
      Except.ok (([res_ok, res_failure] : List TestResult).get ⟨0, by decide⟩) :=
  ⟨((one_record_per_testcase root_two [res_ok, res_failure]).1 (by decide)).1,
   ((one_record_per_testcase root_two [res_ok, res_failure]).2 (by decide)).2
     0 (by decide) (by decide)⟩

/-- Claim C8: a framework name that is neither `nose` nor `py.test` makes
`start` raise (the `Unknown framework` ValueError, the ConfigurationError
of the design) before the result file is touched and before any process
is launched: the effect list is never produced. -/
theorem unknown_framework_rejected (framework : String) (os_is_nt : Bool)
    (resultfilename : String) (h1 : framework ≠ "nose") (h2 : framework ≠ "py.test") :
    start_effects framework os_is_nt resultfilename =
      Except.error (PyError.valueError "Unknown framework") ∧
    ∀ effects : List StartEffect,
      start_effects framework os_is_nt resultfilename ≠ Except.ok effects := by
  have h : start_effects framework os_is_nt resultfilename =
      Except.error (PyError.valueError "Unknown framework") := by
    unfold start_effects start_command
    simp [h1, h2]
  refine ⟨h, fun effects heq => ?_⟩
  rw [h] at heq
  cases heq

/-- Witness for claim C8, at the framework name `unittest`. -/
theorem unknown_framework_rejected_witness :
    start_effects "unittest" false "unittest.results" =
      Except.error (PyError.valueError "Unknown framework") :=
  (unknown_framework_rejected "unittest" false "unittest.results"
    (by decide) (by decide)).1

/-- Claim C9 (implicit): Dialect A derives status, message and extra text
solely from the first child of a testcase — the parse equals the parse of
the testcase with only that first child, later siblings are ignored — and
it uses the first child tag as the status whatever the tag is: when the
tag is in the category table the record carries it verbatim, and when it
is not (for example `system-out`), the category lookup fails with a
KeyError instead of falling back to `ok`. -/
theorem first_child_determines_record_A (tc c : Element) (rest : List Element)
    (hc : tc.children = c :: rest) :
    parse_testcase_A tc = parse_testcase_A { tc with children := [c] } ∧
    (∀ q : ℚ, pyFloat (tc.get "time") = Except.ok q →
      (STATUS_TO_CATEGORY c.tag = none →
        parse_testcase_A tc = Except.error (PyError.keyError c.tag)) ∧
      (∀ cat : Category, STATUS_TO_CATEGORY c.tag = some cat →
        parse_testcase_A tc =
          Except.ok ⟨cat, c.tag, testcaseName tc,
            messageA (c.get "type") (c.getD "message" ""), q, c.text.getD ""⟩)) := by
  constructor
  · unfold parse_testcase_A
    rw [hc]
    rfl
  · intro q ht
    constructor
    · intro hcat
      unfold parse_testcase_A
      rw [ht, hc]
      dsimp only
      rw [hcat]
    · intro cat hcat
      unfold parse_testcase_A
      rw [ht, hc]
      dsimp only
      rw [hcat]

/-- Witness for claim C9, at a testcase whose first child is a
`system-out` element followed by a `failure` sibling. -/
theorem first_child_determines_record_A_witness :
    parse_testcase_A tc_sysout_first = Except.error (PyError.keyError "system-out") :=
  ((first_child_determines_record_A tc_sysout_first sysout_x [failure_child] rfl).2
    1 (by decide)).1 (by decide)

/-- Claim C10 (implicit): in Dialect B, a `system-out` (or `system-err`)
child with no text content makes `load_data` raise an AttributeError
(`None.rstrip`) instead of producing a record: the stream-block branch is
not total. -/
theorem empty_stream_child_raises :
    parse_testcase_B tc_empty_stream = Except.error PyError.attributeError ∧
    load_data_B (some root_empty_stream) = Except.error PyError.attributeError := by
  decide

end SpyderUnittest
